import Mathlib

/-!
Verification of the go-cli-healthchecker repository (`cmd/check.go`).

The embedding models the two core functions:

* `checkEndpoint` — a single HTTP health probe: it issues one GET via an
  `http.Client` configured with a timeout, measures the elapsed duration, and
  classifies the outcome into a `HealthResult`.
* `runCheck` — the dispatcher: it builds the endpoint list from the `--urls`
  flag (or falls back to three built-in defaults), spawns one goroutine per
  endpoint, each of which runs `checkEndpoint` and surfaces its result, and
  joins on a `sync.WaitGroup` barrier before printing the summary line.

The HTTP transport (`client.Get`) is external to the repository, so it is
modelled as an oracle: a function from the configured timeout and the URL to
either a received response or a transport error, together with the elapsed
wall-clock duration of the call (`time.Since(start)`).  Goroutine scheduling
is modelled operationally: a `DispatchState` records the spawned-but-unfinished
probe units, the WaitGroup counter, and the results surfaced so far, and a
`Step` relation lets any pending unit finish in any order.
-/

set_option autoImplicit false

namespace HealthCheck

/-- Endpoint mirrors the Go struct `Endpoint`: a named probe target. -/
structure Endpoint where
  name : String
  url : String
deriving Repr, DecidableEq

/-- Response models the parts of Go's `http.Response` that `checkEndpoint`
touches: the status code and the response body (identified by a handle, so
that the resource discipline of `resp.Body.Close()` can be tracked). -/
structure Response where
  statusCode : Nat
  bodyId : Nat
deriving Repr, DecidableEq

/-- GetOutcome is the result of `client.Get`: either a received response
(`err == nil` in Go) or a transport error (timeout expiry, connection error,
malformed URL, name resolution failure — all surfaced as a non-nil `error`,
modelled by its message). -/
inductive GetOutcome where
  | ok (resp : Response)
  | err (msg : String)
deriving Repr, DecidableEq

/-- Transport is the oracle for the external HTTP layer: given the client
timeout (in seconds, as configured via `time.Duration(timeout) * time.Second`)
and a URL, it yields the outcome of `client.Get` and the elapsed duration
(in nanoseconds) measured by `time.Since(start)`. -/
structure Transport where
  get : Nat → String → GetOutcome × Nat

/-- WF states that the transport is a faithful model of Go's HTTP layer:
a received response carries the status code parsed from the status line,
which is never zero (the Go zero value of `StatusCode` marks its absence). -/
def Transport.WF (tr : Transport) : Prop :=
  ∀ timeout url resp d, tr.get timeout url = (GetOutcome.ok resp, d) →
    resp.statusCode ≠ 0

/-- HealthResult mirrors the Go struct `HealthResult`.  `statusCode = 0` is
the Go zero value, meaning "absent"; `error = none` is Go's `nil` error. -/
structure HealthResult where
  endpoint : Endpoint
  isHealthy : Bool
  statusCode : Nat
  duration : Nat
  error : Option String
deriving Repr, DecidableEq

/-- checkEndpointTracked embeds Go `checkEndpoint` together with the
open-response-body resource state.  It threads the list of currently open
body handles: a successful `client.Get` hands the caller an open body, and
the deferred `resp.Body.Close()` runs before the function returns.  On the
error path `resp` is nil and no body is ever handed out. -/
def checkEndpointTracked (timeout : Nat) (tr : Transport) (endpoint : Endpoint)
    (openBodies : List Nat) : HealthResult × List Nat :=
  let r := tr.get timeout endpoint.url
  let duration := r.2
  match r.1 with
  | GetOutcome.err e =>
      ({ endpoint := endpoint, isHealthy := false, statusCode := 0,
         duration := duration, error := some e }, openBodies)
  | GetOutcome.ok resp =>
      let opened := openBodies ++ [resp.bodyId]
      let isHealthy := decide (200 ≤ resp.statusCode ∧ resp.statusCode < 400)
      ({ endpoint := endpoint, isHealthy := isHealthy,
         statusCode := resp.statusCode, duration := duration, error := none },
       opened.erase resp.bodyId)

/-- checkEndpoint is the Go function `checkEndpoint`: the `HealthResult` it
returns (the resource state starts empty and is dropped). -/
def checkEndpoint (timeout : Nat) (tr : Transport) (endpoint : Endpoint) :
    HealthResult :=
  (checkEndpointTracked timeout tr endpoint []).1

/-- customName renders the display label `fmt.Sprintf("Custom-%d", i+1)` for
the zero-based input position `i`. -/
def customName (i : Nat) : String :=
  "Custom-" ++ toString (i + 1)

/-- buildCustom embeds the loop `for i, url := range urls` of `runCheck`,
appending one `Endpoint` named `Custom-(i+1)` per input URL, in input order.
The first parameter is the current zero-based index. -/
def buildCustom : Nat → List String → List Endpoint
  | _, [] => []
  | i, url :: rest =>
      { name := customName i, url := url } :: buildCustom (i + 1) rest

/-- defaultEndpoints are the three built-in endpoints of `runCheck`. -/
def defaultEndpoints : List Endpoint :=
  [ { name := "Github API", url := "https://api.github.com" },
    { name := "JSONPlaceholder",
      url := "https://jsonplaceholder.typicode.com/posts/1" },
    { name := "Dog Breeds API", url := "https://dog.ceo/api/breeds/list/all" } ]

/-- buildEndpoints embeds the endpoint-list construction of `runCheck`:
custom URLs when `len(urls) > 0`, the defaults otherwise. -/
def buildEndpoints (urls : List String) : List Endpoint :=
  if urls.length > 0 then buildCustom 0 urls else defaultEndpoints

/-- maxElapsed models the total wall-clock time of a set of probes run fully
concurrently: it is bounded by the slowest probe, not by the sum. -/
def maxElapsed (rs : List HealthResult) : Nat :=
  rs.foldr (fun r acc => max r.duration acc) 0

/-- runAll is the functional summary of the dispatch loop of `runCheck`:
one `checkEndpoint` call per endpoint, the full sequence of outcomes, and the
total elapsed time reported after the `wg.Wait()` barrier. -/
def runAll (timeout : Nat) (tr : Transport) (endpoints : List Endpoint) :
    List HealthResult × Nat :=
  let results := endpoints.map (checkEndpoint timeout tr)
  (results, maxElapsed results)

/-- Flags models the three cobra flags of the `check` command. -/
structure Flags where
  timeout : Nat
  urls : List String
  verbose : Bool

/-- RunOutput is what one invocation of `runCheck` produces: the header lines
printed before dispatch, the surfaced probe results, and the summary data
(`len(endpoints)` and total elapsed time). -/
structure RunOutput where
  header : List String
  results : List HealthResult
  checkedCount : Nat
  elapsed : Nat
deriving Repr, DecidableEq

/-- runCheck embeds the Go `runCheck` command handler: print the banner (plus
the timeout diagnostic when verbose), build the endpoint list, probe every
endpoint, and report the count and elapsed time. -/
def runCheck (flags : Flags) (tr : Transport) : RunOutput :=
  let header :=
    ["Health Checker v0.1", "-----------------------"] ++
      (if flags.verbose then
        ["Timeout: " ++ toString flags.timeout ++ "s"]
      else []) ++ [""]
  let endpoints := buildEndpoints flags.urls
  let results := endpoints.map (checkEndpoint flags.timeout tr)
  { header := header, results := results,
    checkedCount := endpoints.length, elapsed := maxElapsed results }

/-- DispatchState is the operational state of the goroutine fan-out in
`runCheck`: the spawned probe units that have not yet finished, the
`sync.WaitGroup` counter, and the results surfaced (printed) so far. -/
structure DispatchState where
  pending : List Endpoint
  wgCount : Nat
  results : List HealthResult
deriving Repr, DecidableEq

/-- spawnAll models the dispatch loop: every endpoint gets one goroutine and
one `wg.Add(1)`, so the initial state has all units pending, the counter at
the number of endpoints, and no result surfaced yet. -/
def spawnAll (endpoints : List Endpoint) : DispatchState :=
  { pending := endpoints, wgCount := endpoints.length, results := [] }

/-- finishUnit models one goroutine running to completion: it surfaces the
`checkEndpoint` result of the unit at position `i` of the pending list and
executes its deferred `wg.Done()`. -/
def finishUnit (timeout : Nat) (tr : Transport) (s : DispatchState) (i : Nat)
    (h : i < s.pending.length) : DispatchState :=
  { pending := s.pending.eraseIdx i,
    wgCount := s.wgCount - 1,
    results := s.results ++ [checkEndpoint timeout tr (s.pending.get ⟨i, h⟩)] }

/-- Step is the scheduler relation: at any moment any pending unit may be the
next to finish, in any order — completion order is unconstrained. -/
inductive Step (timeout : Nat) (tr : Transport) :
    DispatchState → DispatchState → Prop where
  | finish (s : DispatchState) (i : Nat) (h : i < s.pending.length) :
      Step timeout tr s (finishUnit timeout tr s i h)

/-- Reach is the set of dispatch states reachable from `spawnAll endpoints`
under an arbitrary schedule. -/
inductive Reach (timeout : Nat) (tr : Transport) (endpoints : List Endpoint) :
    DispatchState → Prop where
  | init : Reach timeout tr endpoints (spawnAll endpoints)
  | step (s t : DispatchState) : Reach timeout tr endpoints s →
      Step timeout tr s t → Reach timeout tr endpoints t

/-- waitEnabled holds when `wg.Wait()` unblocks: the WaitGroup counter has
reached zero. -/
def waitEnabled (s : DispatchState) : Prop :=
  s.wgCount = 0

/-! ### Concrete transports and endpoints used by witnesses -/

/-- okTransport is a transport oracle whose every GET yields a response with
the given status code (body handle 0) after 5ns. -/
def okTransport (code : Nat) : Transport :=
  { get := fun _ _ => (GetOutcome.ok { statusCode := code, bodyId := 0 }, 5) }

/-- failTransport is a transport oracle whose every GET fails with a
connection-refused transport error after 7ns. -/
def failTransport : Transport :=
  { get := fun _ _ => (GetOutcome.err "connection refused", 7) }

/-- epA is a sample endpoint. -/
def epA : Endpoint :=
  { name := "A", url := "https://a.example" }

/-- epB is a sample endpoint. -/
def epB : Endpoint :=
  { name := "B", url := "https://b.example" }

/-! ### Claims about the Prober (`checkEndpoint`) -/

/-- C3: whenever a response is received (no transport error), `checkEndpoint`
records the response status code, sets `IsHealthy = (200 <= code < 400)`, and
leaves `Error` empty; in particular a 404 response is always unhealthy and a
204 response is always healthy. -/
theorem checkEndpoint_response_classification (timeout : Nat) (tr : Transport)
    (ep : Endpoint) (resp : Response) (d : Nat)
    (h : tr.get timeout ep.url = (GetOutcome.ok resp, d)) :
    checkEndpoint timeout tr ep =
      { endpoint := ep,
        isHealthy := decide (200 ≤ resp.statusCode ∧ resp.statusCode < 400),
        statusCode := resp.statusCode, duration := d, error := none } ∧
    (resp.statusCode = 404 → (checkEndpoint timeout tr ep).isHealthy = false) ∧
    (resp.statusCode = 204 → (checkEndpoint timeout tr ep).isHealthy = true) := by
  refine ⟨by simp [checkEndpoint, checkEndpointTracked, h], ?_, ?_⟩ <;>
    intro hc <;> simp [checkEndpoint, checkEndpointTracked, h, hc]

/-- C3 witness: a fixed 404 response is classified unhealthy and a fixed 204
response healthy. -/
theorem checkEndpoint_response_classification_witness :
    (checkEndpoint 10 (okTransport 404) epA).isHealthy = false ∧
    (checkEndpoint 10 (okTransport 204) epB).isHealthy = true := by
  constructor
  · exact (checkEndpoint_response_classification 10 (okTransport 404) epA
      { statusCode := 404, bodyId := 0 } 5 rfl).2.1 rfl
  · exact (checkEndpoint_response_classification 10 (okTransport 204) epB
      { statusCode := 204, bodyId := 0 } 5 rfl).2.2 rfl

/-- C4: when the request fails for any reason, `checkEndpoint` returns
normally with the failure recorded in `Error`, `StatusCode` zero (absent) and
`IsHealthy = false` — the failure is data in the outcome, not a thrown
exception (the embedding is a total function into `HealthResult`). -/
theorem checkEndpoint_failure_as_data (timeout : Nat) (tr : Transport)
    (ep : Endpoint) (e : String) (d : Nat)
    (h : tr.get timeout ep.url = (GetOutcome.err e, d)) :
    checkEndpoint timeout tr ep =
      { endpoint := ep, isHealthy := false, statusCode := 0, duration := d,
        error := some e } := by
  simp [checkEndpoint, checkEndpointTracked, h]

/-- C4 witness: a concrete connection-refused failure is captured as data. -/
theorem checkEndpoint_failure_as_data_witness :
    checkEndpoint 10 failTransport epA =
      { endpoint := epA, isHealthy := false, statusCode := 0, duration := 7,
        error := some "connection refused" } :=
  checkEndpoint_failure_as_data 10 failTransport epA "connection refused" 7 rfl

/-- C5: on every exit path of `checkEndpoint` — response received or request
failed — the `Duration` field equals the elapsed time measured by the timed
transport call (`time.Since(start)`). -/
theorem checkEndpoint_duration_populated (timeout : Nat) (tr : Transport)
    (ep : Endpoint) :
    (checkEndpoint timeout tr ep).duration = (tr.get timeout ep.url).2 := by
  cases h : (tr.get timeout ep.url).1 <;>
    simp [checkEndpoint, checkEndpointTracked, h]

/-- C1: exactly one of {`StatusCode` non-zero, `Error` non-nil} holds for
every result of `checkEndpoint` (given a transport whose received responses
carry a non-zero status code), `IsHealthy` is true iff the status code lies
in `[200, 400)`, and `IsHealthy` is never true when `Error` is set. -/
theorem checkEndpoint_exactly_one (timeout : Nat) (tr : Transport)
    (ep : Endpoint) (hwf : tr.WF) :
    (((checkEndpoint timeout tr ep).statusCode ≠ 0 ∧
        (checkEndpoint timeout tr ep).error = none) ∨
      ((checkEndpoint timeout tr ep).statusCode = 0 ∧
        (checkEndpoint timeout tr ep).error ≠ none)) ∧
    ((checkEndpoint timeout tr ep).isHealthy = true ↔
      200 ≤ (checkEndpoint timeout tr ep).statusCode ∧
        (checkEndpoint timeout tr ep).statusCode < 400) ∧
    ((checkEndpoint timeout tr ep).error ≠ none →
      (checkEndpoint timeout tr ep).isHealthy = false) := by
  rcases h : tr.get timeout ep.url with ⟨res, d⟩
  cases res with
  | ok resp =>
      have hnz : resp.statusCode ≠ 0 := hwf timeout ep.url resp d h
      have hce : checkEndpoint timeout tr ep =
          { endpoint := ep,
            isHealthy := decide (200 ≤ resp.statusCode ∧ resp.statusCode < 400),
            statusCode := resp.statusCode, duration := d, error := none } := by
        simp [checkEndpoint, checkEndpointTracked, h]
      rw [hce]
      refine ⟨Or.inl ⟨hnz, rfl⟩, ?_, ?_⟩
      · simp
      · intro hc; exact absurd rfl hc
  | err e =>
      have hce : checkEndpoint timeout tr ep =
          { endpoint := ep, isHealthy := false, statusCode := 0, duration := d,
            error := some e } := by
        simp [checkEndpoint, checkEndpointTracked, h]
      rw [hce]
      refine ⟨Or.inr ⟨rfl, by simp⟩, by simp, fun _ => rfl⟩

/-- C1 witness: at a concrete 204 response, the status code is populated and
the error is empty. -/
theorem checkEndpoint_exactly_one_witness :
    ((checkEndpoint 10 (okTransport 204) epA).statusCode ≠ 0 ∧
      (checkEndpoint 10 (okTransport 204) epA).error = none) ∨
    ((checkEndpoint 10 (okTransport 204) epA).statusCode = 0 ∧
      (checkEndpoint 10 (okTransport 204) epA).error ≠ none) :=
  (checkEndpoint_exactly_one 10 (okTransport 204) epA
    (by
      intro t u r d h
      simp [okTransport] at h
      rcases h with ⟨h1, h2⟩
      rw [← h1]
      decide)).1

/-- C10: the verbose flag does not influence any probe outcome — two runs of
`runCheck` differing only in `verbose` produce the same list of results. -/
theorem runCheck_verbose_no_influence (timeout : Nat) (urls : List String)
    (tr : Transport) :
    (runCheck { timeout := timeout, urls := urls, verbose := true } tr).results =
      (runCheck { timeout := timeout, urls := urls, verbose := false } tr).results :=
  rfl

/-- C8: the response body handed out by a successful GET is closed before
`checkEndpoint` returns (the deferred `resp.Body.Close()`), and the error
path opens no body — the set of open bodies is unchanged on every outcome.
The freshness hypothesis says the body handle the transport hands out is a
new one, not one already open. -/
theorem checkEndpoint_closes_body (timeout : Nat) (tr : Transport)
    (ep : Endpoint) (openBodies : List Nat)
    (hfresh : ∀ resp d, tr.get timeout ep.url = (GetOutcome.ok resp, d) →
      resp.bodyId ∉ openBodies) :
    (checkEndpointTracked timeout tr ep openBodies).2 = openBodies := by
  rcases h : tr.get timeout ep.url with ⟨res, d⟩
  cases res with
  | err e => simp [checkEndpointTracked, h]
  | ok resp =>
      have hb : resp.bodyId ∉ openBodies := hfresh resp d h
      simp only [checkEndpointTracked, h]
      rw [List.erase_append_right _ hb, List.erase_cons_head, List.append_nil]

/-- C8 witness: with bodies 5 and 8 already open and a fresh handle 0 handed
out, the open-body set is unchanged by the call. -/
theorem checkEndpoint_closes_body_witness :
    (checkEndpointTracked 10 (okTransport 200) epA [5, 8]).2 = [5, 8] :=
  checkEndpoint_closes_body 10 (okTransport 200) epA [5, 8]
    (by
      intro r d h
      simp [okTransport] at h
      rcases h with ⟨h1, h2⟩
      rw [← h1]
      decide)

/-! ### Claims about endpoint-list construction in `runCheck` -/

/-- buildCustom produces one endpoint per input URL. -/
theorem buildCustom_length (i : Nat) (urls : List String) :
    (buildCustom i urls).length = urls.length := by
  induction urls generalizing i with
  | nil => rfl
  | cons u rest ih => simp [buildCustom, ih]

/-- buildCustom names the entry at position `j` with `customName (i + j)` and
keeps the URL at the same position. -/
theorem buildCustom_getElem? (i j : Nat) (urls : List String) :
    (buildCustom i urls)[j]? =
      (urls[j]?).map (fun u => { name := customName (i + j), url := u }) := by
  induction urls generalizing i j with
  | nil => simp [buildCustom]
  | cons u rest ih =>
      cases j with
      | zero => simp [buildCustom]
      | succ k =>
          have harith : i + 1 + k = i + (k + 1) := by omega
          simp [buildCustom, ih (i + 1) k, harith]

/-- buildCustom only produces endpoints with non-empty display names. -/
theorem buildCustom_name_pos (i : Nat) (urls : List String) :
    ∀ ep ∈ buildCustom i urls, 0 < ep.name.length := by
  induction urls generalizing i with
  | nil => intro ep h; simp [buildCustom] at h
  | cons u rest ih =>
      intro ep h
      simp only [buildCustom, List.mem_cons] at h
      rcases h with h | h
      · subst h
        have h7 : ("Custom-" : String).length = 7 := by decide
        simp only [customName, String.length_append, h7]
        omega
      · exact ih (i + 1) ep h

/-- C9: with N supplied URLs the endpoint list has exactly N entries, the
entry at zero-based position `i` is named `Custom-(i+1)` and keeps the i-th
input URL; with no URLs the three built-in defaults are used; the dispatch
loop therefore never receives an empty endpoint list. -/
theorem runCheck_endpoint_construction (urls : List String) (i : Nat)
    (h : i < urls.length) :
    (buildEndpoints urls).length = urls.length ∧
    (buildEndpoints urls)[i]? =
      (urls[i]?).map (fun u => { name := customName i, url := u }) ∧
    buildEndpoints [] = defaultEndpoints ∧
    (∀ us : List String, buildEndpoints us ≠ []) ∧
    (∀ ep ∈ buildEndpoints urls, 0 < ep.name.length) := by
  have hpos : urls.length > 0 := Nat.lt_of_le_of_lt (Nat.zero_le i) h
  refine ⟨?_, ?_, rfl, ?_, ?_⟩
  · simp [buildEndpoints, hpos, buildCustom_length]
  · have hb := buildCustom_getElem? 0 i urls
    simp only [Nat.zero_add] at hb
    simp [buildEndpoints, hpos, hb]
  · intro us
    by_cases hus : us.length > 0
    · have hlen : (buildEndpoints us).length = us.length := by
        simp [buildEndpoints, hus, buildCustom_length]
      rw [← List.length_pos, hlen]
      exact hus
    · rw [← List.length_pos]
      have : buildEndpoints us = defaultEndpoints := by
        simp [buildEndpoints, hus]
      rw [this]
      decide
  · intro ep hep
    simp only [buildEndpoints, hpos, if_pos] at hep
    exact buildCustom_name_pos 0 urls ep hep

/-- C9 witness: two custom URLs give two endpoints, the second being
`Custom-2` with the second URL. -/
theorem runCheck_endpoint_construction_witness :
    (buildEndpoints ["https://x", "https://y"]).length = 2 ∧
    (buildEndpoints ["https://x", "https://y"])[1]? =
      some { name := "Custom-2", url := "https://y" } := by
  have h := runCheck_endpoint_construction ["https://x", "https://y"] 1
    (by decide)
  refine ⟨h.1, ?_⟩
  rw [h.2.1]
  decide

/-! ### Claims about the Dispatcher/Collector -/

/-- Extracting the element at index `i` and erasing it from the list is a
permutation of the original list, after mapping. -/
theorem map_cons_eraseIdx_perm {α β : Type} (f : α → β) (l : List α) (i : Nat)
    (hi : i < l.length) :
    (f (l.get ⟨i, hi⟩) :: (l.eraseIdx i).map f).Perm (l.map f) := by
  induction l generalizing i with
  | nil => exact absurd hi (Nat.not_lt_zero i)
  | cons a t ih =>
      cases i with
      | zero => simp
      | succ j =>
          have hj : j < t.length := Nat.lt_of_succ_lt_succ hi
          have hperm := ih j hj
          simp only [List.get_cons_succ, List.eraseIdx_cons_succ, List.map_cons]
          exact (List.Perm.swap (f a) (f (t.get ⟨j, hj⟩))
            ((t.eraseIdx j).map f)).trans (hperm.cons (f a))

/-- Invariant of every reachable dispatch state: the WaitGroup counter equals
the number of pending units, and the surfaced results together with the
results still to come are a permutation of one `checkEndpoint` outcome per
input endpoint. -/
theorem reach_invariant (timeout : Nat) (tr : Transport)
    (endpoints : List Endpoint) (s : DispatchState)
    (hr : Reach timeout tr endpoints s) :
    s.wgCount = s.pending.length ∧
    (s.results ++ s.pending.map (checkEndpoint timeout tr)).Perm
      (endpoints.map (checkEndpoint timeout tr)) := by
  induction hr with
  | init => simp [spawnAll]
  | step s t hreach hstep ih =>
      obtain ⟨hc, hp⟩ := ih
      cases hstep with
      | finish i hi =>
          refine ⟨?_, ?_⟩
          · simp [finishUnit, List.length_eraseIdx, hi, hc]
          · simp only [finishUnit, List.append_assoc, List.singleton_append]
            exact ((map_cons_eraseIdx_perm (checkEndpoint timeout tr)
              s.pending i hi).append_left s.results).trans hp

/-- C2: for every input list of N endpoints, once the WaitGroup barrier is
passed the dispatch loop has surfaced exactly N outcomes — a permutation of
one `checkEndpoint` result per input endpoint, none dropped, duplicated, or
pending. -/
theorem runCheck_outcome_count (timeout : Nat) (tr : Transport)
    (endpoints : List Endpoint) (s : DispatchState)
    (hr : Reach timeout tr endpoints s) (hw : waitEnabled s) :
    s.results.length = endpoints.length ∧
    s.results.Perm (endpoints.map (checkEndpoint timeout tr)) := by
  obtain ⟨hc, hp⟩ := reach_invariant timeout tr endpoints s hr
  have hnil : s.pending = [] :=
    List.eq_nil_of_length_eq_zero (by rw [← hc]; exact hw)
  rw [hnil] at hp
  simp only [List.map_nil, List.append_nil] at hp
  exact ⟨by rw [hp.length_eq, List.length_map], hp⟩

/-- C2 witness: a concrete two-endpoint schedule surfaces exactly two
outcomes at the barrier. -/
theorem runCheck_outcome_count_witness :
    (finishUnit 10 (okTransport 200)
      (finishUnit 10 (okTransport 200) (spawnAll [epA, epB]) 0 (by decide))
      0 (by decide)).results.length = 2 :=
  (runCheck_outcome_count 10 (okTransport 200) [epA, epB] _
    (Reach.step _ _ (Reach.step _ _ Reach.init (Step.finish _ 0 (by decide)))
      (Step.finish _ 0 (by decide)))
    rfl).1

/-- C6: the dispatcher passes the `wg.Wait()` barrier only when every spawned
probe unit has reached a terminal state — no unit is still pending, and every
endpoint's outcome has been surfaced, so no probe short-circuits or cancels a
sibling. -/
theorem runCheck_join_barrier (timeout : Nat) (tr : Transport)
    (endpoints : List Endpoint) (s : DispatchState)
    (hr : Reach timeout tr endpoints s) (hw : waitEnabled s) :
    s.pending = [] ∧
    ∀ ep ∈ endpoints, checkEndpoint timeout tr ep ∈ s.results := by
  obtain ⟨hc, hp⟩ := reach_invariant timeout tr endpoints s hr
  have hnil : s.pending = [] :=
    List.eq_nil_of_length_eq_zero (by rw [← hc]; exact hw)
  rw [hnil] at hp
  simp only [List.map_nil, List.append_nil] at hp
  exact ⟨hnil, fun ep hep => hp.mem_iff.2 (List.mem_map_of_mem _ hep)⟩

/-- C6 witness: in a concrete one-endpoint run with a failing transport, the
barrier state has no pending unit. -/
theorem runCheck_join_barrier_witness :
    (finishUnit 10 failTransport (spawnAll [epB]) 0 (by decide)).pending = [] :=
  (runCheck_join_barrier 10 failTransport [epB] _
    (Reach.step _ _ Reach.init (Step.finish _ 0 (by decide))) rfl).1

/-- C7: on an empty endpoint list the dispatcher launches no unit, the
barrier is passable immediately, the only reachable state is the initial one,
and the run yields no outcome and zero elapsed time. -/
theorem runAll_empty (timeout : Nat) (tr : Transport) (s : DispatchState)
    (hr : Reach timeout tr [] s) :
    runAll timeout tr [] = ([], 0) ∧
    waitEnabled (spawnAll ([] : List Endpoint)) ∧
    s = spawnAll ([] : List Endpoint) ∧ s.results = [] := by
  have hs : s = spawnAll ([] : List Endpoint) := by
    induction hr with
    | init => rfl
    | step s t hreach hstep ih =>
        cases hstep with
        | finish i hi =>
            rw [ih] at hi
            exact absurd hi (by simp [spawnAll])
  exact ⟨rfl, rfl, hs, by rw [hs]; rfl⟩

/-- C7 witness: the empty run at a concrete transport. -/
theorem runAll_empty_witness :
    runAll 10 failTransport [] = ([], 0) ∧
    (spawnAll ([] : List Endpoint)).results = [] :=
  ⟨(runAll_empty 10 failTransport (spawnAll []) Reach.init).1,
    (runAll_empty 10 failTransport (spawnAll []) Reach.init).2.2.2⟩

end HealthCheck
